import Mathlib

/-!
A shallow embedding of the partitioning model and execution-engine layer of
the fugue repository, together with proofs about the embedded operations.

Embedded from the sources:
  - src/fugue/execution/native_execution_engine.py (NativeExecutionEngine.map,
    subtract, intersect)
  - src/fugue/extensions/_builtins/processors.py (_TransformerRunner, DropColumns)
  - src/fugue_dask/dataframe.py (DaskDataFrame.peek_array)

The classes PartitionSpec and PartitionCursor live in
fugue/collections/partition.py, which is not part of the given sources (only
their tests under src/tests are); those definitions are modelled from the
spec, as marked in their doc comments.

Cell values of dataframes are modelled as integers; machine floats and other
value kinds are irrelevant to the properties treated here.
-/

/-- Errors raised by the embedded python code, tagged by the python
exception class used at the raise site. -/
inductive PyError where
  | assertion (msg : String)
  | notImplemented (msg : String)
  | valueError (msg : String)
  | syntaxError (msg : String)
  | typeError (msg : String)
  | nameError (msg : String)
deriving DecidableEq, Repr

/-- ASCII lower-casing of one character, as python str.lower does for the
basic latin range used by fugue algo tokens. -/
def lowerChar (c : Char) : Char :=
  if 65 ≤ c.toNat ∧ c.toNat ≤ 90 then Char.ofNat (c.toNat + 32) else c

/-- ASCII lower-casing of a string. -/
def lowerString (s : String) : String :=
  String.mk (s.data.map lowerChar)

/-- Splits a character list on a separator character; the result always has
at least one (possibly empty) chunk, like python str.split. -/
def splitOnChar (sep : Char) : List Char → List (List Char)
  | [] => [[]]
  | c :: cs =>
    match splitOnChar sep cs with
    | [] => [[c]]
    | h :: t => if c = sep then [] :: h :: t else (c :: h) :: t

/-- Removes leading and trailing spaces, like python str.strip for the
inputs relevant here. -/
def trimChars (l : List Char) : List Char :=
  ((l.dropWhile (fun c => c = ' ')).reverse.dropWhile (fun c => c = ' ')).reverse

/-- Constructor input values for PartitionSpec: strings, non-negative
integers, lists of column names, or presort pairs (column, ascending). -/
inductive PValue where
  | str (v : String)
  | nat (v : Nat)
  | strs (v : List String)
  | sorts (v : List (String × Bool))
deriving DecidableEq, Repr

/-- Modelled from the spec: PartitionSpec (fugue/collections/partition.py is
not under the given sources), the immutable value object describing how a
dataset is divided and ordered.  Field order follows the spec's canonical
document order: by-columns, num-partitions, presort, algo, row-limit,
size-limit. -/
structure PartitionSpec where
  partition_by : List String
  num_partitions : String
  presort : List (String × Bool)
  algo : String
  row_limit : Nat
  size_limit : String
deriving DecidableEq, Repr

/-- Key lookup in a JSON-like mapping given as key-value pairs. -/
def lookupKey (input : List (String × PValue)) (k : String) : Option PValue :=
  (input.find? (fun kv => kv.1 = k)).map Prod.snd

/-- Lookup under a primary key name, falling back to an alias. -/
def lookup2 (input : List (String × PValue)) (k1 k2 : String) : Option PValue :=
  match lookupKey input k1 with
  | some v => some v
  | none => lookupKey input k2

/-- Modelled from the spec: one presort clause is parsed as
"<col> [asc|desc]" with ascending as the default; an unknown direction token
or a malformed clause is a syntax error. -/
def parsePresortClause (clause : List Char) : Except PyError (String × Bool) :=
  match splitOnChar ' ' (trimChars clause) with
  | [col] =>
    if col = [] then .error (.syntaxError "empty presort clause")
    else .ok (String.mk col, true)
  | [col, dir] =>
    if col = [] then .error (.syntaxError "empty presort column")
    else if lowerString (String.mk dir) = "asc" then .ok (String.mk col, true)
    else if lowerString (String.mk dir) = "desc" then .ok (String.mk col, false)
    else .error (.syntaxError "unknown presort direction")
  | _ => .error (.syntaxError "malformed presort clause")

/-- Modelled from the spec: presort strings are parsed token-by-token as
comma-separated clauses. -/
def parsePresort (s : String) : Except PyError (List (String × Bool)) :=
  if trimChars s.data = [] then .ok []
  else (splitOnChar ',' s.data).mapM parsePresortClause

/-- Extracts the by-columns from constructor input ("partition_by" or its
alias "by"); a value of the wrong kind is a type error. -/
def getPartitionBy (input : List (String × PValue)) : Except PyError (List String) :=
  match lookup2 input "partition_by" "by" with
  | none => .ok []
  | some (.strs l) => .ok l
  | some _ => .error (.typeError "partition_by must be a list of columns")

/-- Extracts num_partitions ("num_partitions" or alias "num"); integers are
kept as their decimal string, per the spec's string-expression field. -/
def getNum (input : List (String × PValue)) : Except PyError String :=
  match lookup2 input "num_partitions" "num" with
  | none => .ok "0"
  | some (.nat n) => .ok (Nat.repr n)
  | some (.str s) => .ok s
  | some _ => .error (.typeError "num_partitions must be int or str")

/-- Extracts the presort field, accepting either a presort expression string
or an explicit list of (column, ascending) pairs. -/
def getPresort (input : List (String × PValue)) : Except PyError (List (String × Bool)) :=
  match lookupKey input "presort" with
  | none => .ok []
  | some (.str s) => parsePresort s
  | some (.sorts l) => .ok l
  | some _ => .error (.typeError "presort must be str or pairs")

/-- Extracts the algo token, lower-cased per the spec, defaulting to "hash". -/
def getAlgo (input : List (String × PValue)) : Except PyError String :=
  match lookupKey input "algo" with
  | none => .ok "hash"
  | some (.str s) => .ok (lowerString s)
  | some _ => .error (.typeError "algo must be str")

/-- Extracts the row_limit cap, defaulting to 0. -/
def getRowLimit (input : List (String × PValue)) : Except PyError Nat :=
  match lookupKey input "row_limit" with
  | none => .ok 0
  | some (.nat n) => .ok n
  | some _ => .error (.typeError "row_limit must be int")

/-- Extracts the size_limit cap, defaulting to "0". -/
def getSizeLimit (input : List (String × PValue)) : Except PyError String :=
  match lookupKey input "size_limit" with
  | none => .ok "0"
  | some (.str s) => .ok s
  | some (.nat n) => .ok (Nat.repr n)
  | some _ => .error (.typeError "size_limit must be int or str")

/-- Modelled from the spec: PartitionSpec construction normalizes a JSON-like
mapping of keyword options into canonical fields, raising definition errors
at construction time for duplicate partition columns, duplicate presort
columns, or overlap between the two. -/
def PartitionSpec.construct (input : List (String × PValue)) : Except PyError PartitionSpec :=
  match getPartitionBy input with
  | .error e => .error e
  | .ok pb =>
    match getNum input with
    | .error e => .error e
    | .ok num =>
      match getPresort input with
      | .error e => .error e
      | .ok ps =>
        match getAlgo input with
        | .error e => .error e
        | .ok algo =>
          match getRowLimit input with
          | .error e => .error e
          | .ok rl =>
            match getSizeLimit input with
            | .error e => .error e
            | .ok sl =>
              if pb.Nodup then
                if (ps.map Prod.fst).Nodup then
                  if pb.all (fun c => !((ps.map Prod.fst).contains c)) then
                    .ok ⟨pb, num, ps, algo, rl, sl⟩
                  else .error (.syntaxError "partition_by overlaps with presort")
                else .error (.syntaxError "duplicate presort columns")
              else .error (.syntaxError "duplicate partition_by columns")

/-- Modelled from the spec: the canonical ordered key-value document of a
PartitionSpec, with the spec's fixed field order: by-columns, num-partitions,
presort, algo, row-limit, size-limit. -/
def PartitionSpec.jsondict (p : PartitionSpec) : List (String × PValue) :=
  [("partition_by", .strs p.partition_by),
   ("num_partitions", .str p.num_partitions),
   ("presort", .sorts p.presort),
   ("algo", .str p.algo),
   ("row_limit", .nat p.row_limit),
   ("size_limit", .str p.size_limit)]

/-- Modelled from the spec: the deterministic content hash (to_uuid) of a
PartitionSpec is taken over its canonical document, and the spec requires
hash equality exactly when the canonical field tuples are equal; the hash is
therefore modelled as the canonical document itself. -/
def specUuid (p : PartitionSpec) : List (String × PValue) :=
  p.jsondict

/-- A schema is an ordered list of (column name, type name) pairs; schema
equality in the embedding is structural equality, matching triad Schema
equality on equal field order and types. -/
abbrev Schema := List (String × String)

/-- The ordered column names of a schema. -/
def schemaNames (s : Schema) : List String :=
  s.map Prod.fst

/-- Position of a named column in a schema. -/
def colIndex (s : Schema) (name : String) : Option Nat :=
  s.findIdx? (fun c => c.1 = name)

/-- Value of a named column in a row laid out by a schema. -/
def rowValue (s : Schema) (row : List Int) (name : String) : Option Int :=
  (colIndex s name).bind (fun i => row.get? i)

/-- triad ParamDict reduced to what the claims need: key-value pairs plus the
read-only flag set by set_readonly. -/
structure ParamDict where
  data : List (String × String)
  readonly : Bool
deriving DecidableEq, Repr

/-- Mutating a ParamDict entry; modelled from the spec's side-effect
contract, a read-only dict refuses the mutation with an error. -/
def ParamDict.setItem (p : ParamDict) (k v : String) : Except PyError ParamDict :=
  if p.readonly then .error (.assertion "ParamDict is readonly")
  else .ok ⟨(k, v) :: p.data.filter (fun kv => kv.1 ≠ k), p.readonly⟩

/-- A local bounded dataframe: a schema, rows of integer cells, and attached
metadata. -/
structure DataFrame where
  schema : Schema
  rows : List (List Int)
  metadata : ParamDict
deriving DecidableEq, Repr

/-- Modelled from the spec: PartitionCursor (fugue/collections/partition.py
is not under the given sources), the mutable per-partition context bound to a
row schema and a key schema, with per-row state set via set. -/
structure PartitionCursor where
  row_schema : Schema
  key_schema : Schema
  physical_partition_no : Nat
  row : List Int
  partition_no : Nat
  slice_no : Nat
deriving DecidableEq, Repr

/-- The only mutator of the cursor: stores the raw row, the partition index
and the slice index. -/
def PartitionCursor.set (c : PartitionCursor) (row : List Int) (pn sn : Nat) : PartitionCursor :=
  { c with row := row, partition_no := pn, slice_no := sn }

/-- Key values as an ordered list, positions matching key_schema; the key
schema is derived from the row schema, so every lookup hits (the 0 default is
never reached for cursors built by get_cursor). -/
def PartitionCursor.key_value_array (c : PartitionCursor) : List Int :=
  c.key_schema.map (fun col => (rowValue c.row_schema c.row col.1).getD 0)

/-- Key values as a name-to-value mapping, modelled as an association list
whose lookup semantics are those of the python dict. -/
def PartitionCursor.key_value_dict (c : PartitionCursor) : List (String × Int) :=
  c.key_schema.map (fun col => (col.1, (rowValue c.row_schema c.row col.1).getD 0))

/-- Arbitrary column lookup by name against the current row. -/
def PartitionCursor.get (c : PartitionCursor) (name : String) : Option Int :=
  rowValue c.row_schema c.row name

/-- Modelled from the spec: the key sub-schema is partition_by intersected
with the row schema, preserving partition_by order. -/
def PartitionSpec.get_key_schema (p : PartitionSpec) (row_schema : Schema) : Schema :=
  p.partition_by.filterMap
    (fun n => (row_schema.find? (fun c => c.1 = n)).map (fun c => (n, c.2)))

/-- Modelled from the spec: builds a fresh cursor bound to the key sub-schema
computed from partition_by against the row schema. -/
def PartitionSpec.get_cursor (p : PartitionSpec) (row_schema : Schema) (physical_partition_no : Nat) : PartitionCursor :=
  ⟨row_schema, p.get_key_schema row_schema, physical_partition_no, [],
    physical_partition_no, 0⟩

/-- Reserved keyword resolved against the running dataset row count. -/
def KEYWORD_ROWCOUNT : String := "ROWCOUNT"

/-- Reserved keyword resolved against the cluster core count. -/
def KEYWORD_CORECOUNT : String := "CORECOUNT"

/-- Tokens of the num_partitions expression grammar. -/
inductive ExprToken where
  | num (n : Nat)
  | ident (s : String)
  | plus
  | minus
  | star
  | slash
  | lparen
  | rparen
  | comma
deriving DecidableEq, Repr

/-- Reads a run of decimal digits, returning the accumulated value and the
remaining characters. -/
def readDigits : List Char → Nat → Nat × List Char
  | c :: cs, acc =>
    if c.isDigit then readDigits cs (acc * 10 + (c.toNat - 48)) else (acc, c :: cs)
  | [], acc => (acc, [])

/-- Characters allowed in an identifier. -/
def isIdentChar (c : Char) : Bool :=
  c.isAlpha || c.isDigit || c = '_'

/-- Reads a run of identifier characters. -/
def readWord : List Char → List Char → List Char × List Char
  | c :: cs, acc =>
    if isIdentChar c then readWord cs (c :: acc) else (acc.reverse, c :: cs)
  | [], acc => (acc.reverse, [])

/-- Fuel-indexed tokenizer for the num_partitions expression grammar; each
step consumes at least one character, so fuel beyond the input length never
runs out. -/
def tokenizeAux : Nat → List Char → Except PyError (List ExprToken)
  | 0, _ => .error (.syntaxError "tokenizer ran out of fuel")
  | _ + 1, [] => .ok []
  | fuel + 1, c :: cs =>
    if c = ' ' then tokenizeAux fuel cs
    else if c = '+' then (tokenizeAux fuel cs).map (fun t => .plus :: t)
    else if c = '-' then (tokenizeAux fuel cs).map (fun t => .minus :: t)
    else if c = '*' then (tokenizeAux fuel cs).map (fun t => .star :: t)
    else if c = '/' then (tokenizeAux fuel cs).map (fun t => .slash :: t)
    else if c = '(' then (tokenizeAux fuel cs).map (fun t => .lparen :: t)
    else if c = ')' then (tokenizeAux fuel cs).map (fun t => .rparen :: t)
    else if c = ',' then (tokenizeAux fuel cs).map (fun t => .comma :: t)
    else if c.isDigit then
      match readDigits (c :: cs) 0 with
      | (n, rest) => (tokenizeAux fuel rest).map (fun t => .num n :: t)
    else if isIdentChar c then
      match readWord (c :: cs) [] with
      | (w, rest) => (tokenizeAux fuel rest).map (fun t => .ident (String.mk w) :: t)
    else .error (.syntaxError "unexpected character in expression")

/-- Tokenizes a num_partitions expression string. -/
def tokenize (s : String) : Except PyError (List ExprToken) :=
  tokenizeAux (s.data.length + 1) s.data

/-- Modelled from the spec: evaluation of the num_partitions expression
grammar (numbers, identifiers resolved against caller resolvers, + - * /,
parentheses, min and max) by fuel-indexed recursive descent.  The level
argument selects the production: 0 additive expression, 1 multiplicative
term, 2 atom, 3 additive tail over acc, 4 multiplicative tail over acc.
Division truncates toward zero as python int(eval(..)) does. -/
def parseLevel (env : List (String × Int)) : Nat → Nat → Int → List ExprToken → Except PyError (Int × List ExprToken)
  | 0, _, _, _ => .error (.syntaxError "expression too deep")
  | fuel + 1, 0, _, toks =>
    match parseLevel env fuel 1 0 toks with
    | .ok (v, rest) => parseLevel env fuel 3 v rest
    | .error e => .error e
  | fuel + 1, 1, _, toks =>
    match parseLevel env fuel 2 0 toks with
    | .ok (v, rest) => parseLevel env fuel 4 v rest
    | .error e => .error e
  | fuel + 1, 2, _, toks =>
    match toks with
    | .num n :: rest => .ok ((n : Int), rest)
    | .ident s :: rest =>
      if s = "min" || s = "max" then
        match rest with
        | .lparen :: rest1 =>
          match parseLevel env fuel 0 0 rest1 with
          | .ok (v1, .comma :: rest2) =>
            match parseLevel env fuel 0 0 rest2 with
            | .ok (v2, .rparen :: rest3) =>
              .ok (if s = "min" then min v1 v2 else max v1 v2, rest3)
            | .ok _ => .error (.syntaxError "expected closing paren")
            | .error e => .error e
          | .ok _ => .error (.syntaxError "expected comma")
          | .error e => .error e
        | _ => .error (.syntaxError "expected open paren")
      else
        match env.find? (fun kv => kv.1 = s) with
        | some kv => .ok (kv.2, rest)
        | none => .error (.nameError "name is not defined")
    | .lparen :: rest =>
      match parseLevel env fuel 0 0 rest with
      | .ok (v, .rparen :: rest2) => .ok (v, rest2)
      | .ok _ => .error (.syntaxError "expected closing paren")
      | .error e => .error e
    | _ => .error (.syntaxError "unexpected token")
  | fuel + 1, 3, acc, toks =>
    match toks with
    | .plus :: rest =>
      match parseLevel env fuel 1 0 rest with
      | .ok (v, rest2) => parseLevel env fuel 3 (acc + v) rest2
      | .error e => .error e
    | .minus :: rest =>
      match parseLevel env fuel 1 0 rest with
      | .ok (v, rest2) => parseLevel env fuel 3 (acc - v) rest2
      | .error e => .error e
    | _ => .ok (acc, toks)
  | fuel + 1, 4, acc, toks =>
    match toks with
    | .star :: rest =>
      match parseLevel env fuel 2 0 rest with
      | .ok (v, rest2) => parseLevel env fuel 4 (acc * v) rest2
      | .error e => .error e
    | .slash :: rest =>
      match parseLevel env fuel 2 0 rest with
      | .ok (v, rest2) => parseLevel env fuel 4 (Int.tdiv acc v) rest2
      | .error e => .error e
    | _ => .ok (acc, toks)
  | _ + 1, _ + 5, _, _ => .error (.syntaxError "invalid parse level")

/-- Recognizes a bare non-negative integer literal (surrounding spaces
allowed). -/
def parseNatLiteral (s : String) : Option Nat :=
  let cs := trimChars s.data
  if cs ≠ [] ∧ cs.all Char.isDigit then some (readDigits cs 0).1 else none

/-- Modelled from the spec: get_num_partitions evaluates the num_partitions
expression; integer literals return directly, otherwise the expression is
evaluated against the caller-supplied resolvers (given here already resolved
to their integer values, since the resolvers take no arguments), and a
keyword referenced without a resolver is an evaluation error. -/
def PartitionSpec.get_num_partitions (p : PartitionSpec) (resolvers : List (String × Int)) : Except PyError Int :=
  match parseNatLiteral p.num_partitions with
  | some n => .ok (n : Int)
  | none =>
    match tokenize p.num_partitions with
    | .error e => .error e
    | .ok toks =>
      match parseLevel resolvers (3 * toks.length + 10) 0 0 toks with
      | .ok (v, []) => .ok v
      | .ok _ => .error (.syntaxError "unexpected trailing tokens")
      | .error e => .error e

/-- Key tuple of a row under a list of key column names. -/
def keyTuple (schema : Schema) (keys : List String) (row : List Int) : List Int :=
  keys.map (fun n => (rowValue schema row n).getD 0)

/-- Distinct key tuples of the rows in first-occurrence order; this is the
grouping device of safe_groupby_apply (qpd, outside the given sources).
Group order does not affect the proved properties. -/
def uniqueKeysAux (schema : Schema) (keys : List String) : List (List Int) → List (List Int) → List (List Int)
  | [], acc => acc.reverse
  | r :: rs, acc =>
    let k := keyTuple schema keys r
    if acc.contains k then uniqueKeysAux schema keys rs acc
    else uniqueKeysAux schema keys rs (k :: acc)

/-- Lexicographic row comparison along the presort columns, honoring each
column's ascending flag. -/
def presortLe (schema : Schema) : List (String × Bool) → List Int → List Int → Bool
  | [], _, _ => true
  | (col, asc) :: rest, r1, r2 =>
    let v1 := (rowValue schema r1 col).getD 0
    let v2 := (rowValue schema r2 col).getD 0
    if v1 = v2 then presortLe schema rest r1 r2
    else if asc then decide (v1 ≤ v2) else decide (v2 ≤ v1)

/-- Insertion into a sorted row list. -/
def insertRow (le : List Int → List Int → Bool) (x : List Int) : List (List Int) → List (List Int)
  | [] => [x]
  | y :: ys => if le x y then x :: y :: ys else y :: insertRow le x ys

/-- Insertion sort of rows (the embedding of pandas sort_values used for
presort; the physical sort algorithm is irrelevant to the claims). -/
def sortRows (le : List Int → List Int → Bool) : List (List Int) → List (List Int)
  | [] => []
  | x :: xs => insertRow le x (sortRows le xs)

/-- Modelled from the spec: the DataFrame base constructor
(fugue/dataframe/dataframe.py, not under the given sources) attaches the
given metadata to the new dataframe frozen (read-only) immediately after
being set. -/
def mkFrozenDataFrame (schema : Schema) (rows : List (List Int)) (metadata : List (String × String)) : DataFrame :=
  ⟨schema, rows, ⟨metadata, true⟩⟩

/-- NativeExecutionEngine.map.  If partition_by is empty the whole dataset is
one partition: the cursor is set from the peeked first row (peeking an empty
dataframe raises), the transform runs once, the output schema must equal
output_schema or an assertion error is raised, and the metadata is attached
and set read-only.  Otherwise the rows are grouped by the partition-by
columns, each group is presorted when presort is non-empty, the cursor is
set from the group's first row with an incremented partition_no, the
transform runs once per group, and the concatenated outputs are wrapped as a
PandasDataFrame with the declared output_schema and the given metadata (no
schema comparison happens on this path).  The source's on_init callback and
its num_partitions warning have no observable effect in this embedding and
are omitted. -/
def NativeExecutionEngine.map (df : DataFrame)
    (map_func : PartitionCursor → DataFrame → DataFrame)
    (output_schema : Schema) (partition_spec : PartitionSpec)
    (metadata : List (String × String)) : Except PyError DataFrame :=
  let cursor := partition_spec.get_cursor df.schema 0
  if partition_spec.partition_by = [] then
    match df.rows with
    | [] => .error (.assertion "peek_array on empty dataframe")
    | r :: _ =>
      let c := cursor.set r 0 0
      let output_df := map_func c df
      if output_df.schema = output_schema then
        .ok { output_df with metadata := ⟨metadata, true⟩ }
      else .error (.assertion "map output schema mismatches given output schema")
  else
    let step := fun (st : List (List Int) × PartitionCursor) (k : List Int) =>
      let group := df.rows.filter
        (fun r => keyTuple df.schema partition_spec.partition_by r == k)
      let sorted := if partition_spec.presort = [] then group
        else sortRows (presortLe df.schema partition_spec.presort) group
      let input_df : DataFrame := ⟨df.schema, sorted, ⟨[], true⟩⟩
      let c := st.2.set (sorted.headD []) (st.2.partition_no + 1) 0
      let out := map_func c input_df
      (st.1 ++ out.rows, c)
    let keys := uniqueKeysAux df.schema partition_spec.partition_by df.rows []
    let result := keys.foldl step ([], cursor)
    .ok (mkFrozenDataFrame output_schema result.1 metadata)

/-- NativeExecutionEngine.union: asserts equal schemas, then delegates to the
pandas-like union (modelled from the spec's set-operation semantics). -/
def NativeExecutionEngine.union (df1 df2 : DataFrame) (distinct : Bool)
    (metadata : List (String × String)) : Except PyError DataFrame :=
  if df1.schema = df2.schema then
    let rows := if distinct then (df1.rows ++ df2.rows).dedup else df1.rows ++ df2.rows
    .ok (mkFrozenDataFrame df1.schema rows metadata)
  else .error (.valueError "df1 schema != df2 schema")

/-- NativeExecutionEngine.subtract: asserts distinct (EXCEPT ALL is not
implemented), asserts equal schemas, then keeps the deduplicated rows of df1
absent from df2. -/
def NativeExecutionEngine.subtract (df1 df2 : DataFrame) (distinct : Bool)
    (metadata : List (String × String)) : Except PyError DataFrame :=
  if distinct then
    if df1.schema = df2.schema then
      .ok (mkFrozenDataFrame df1.schema
        ((df1.rows.filter (fun r => !(df2.rows.contains r))).dedup) metadata)
    else .error (.valueError "df1 schema != df2 schema")
  else .error (.notImplemented "EXCEPT ALL for NativeExecutionEngine")

/-- NativeExecutionEngine.intersect: asserts distinct (INTERSECT ALL is not
implemented), asserts equal schemas, then keeps the deduplicated rows of df1
present in df2. -/
def NativeExecutionEngine.intersect (df1 df2 : DataFrame) (distinct : Bool)
    (metadata : List (String × String)) : Except PyError DataFrame :=
  if distinct then
    if df1.schema = df2.schema then
      .ok (mkFrozenDataFrame df1.schema
        ((df1.rows.filter (fun r => df2.rows.contains r)).dedup) metadata)
    else .error (.valueError "df1 schema != df2 schema")
  else .error (.notImplemented "INTERSECT ALL for NativeExecutionEngine")

/-- A python exception raised by a user transform: the names of its class
and of its ancestor classes, which is what an except clause over a tuple of
classes tests against. -/
structure PyException where
  classes : List String
deriving DecidableEq, Repr

/-- Whether the exception is an instance of one of the tolerated exception
classes. -/
def PyException.matchesAny (e : PyException) (tolerated : List String) : Bool :=
  tolerated.any (fun t => e.classes.contains t)

/-- The surface of a user transformer that _TransformerRunner needs: the
transform body, which sees the bound cursor and may raise, and the declared
output schema. -/
structure Transformer where
  transform : PartitionCursor → DataFrame → Except PyException DataFrame
  output_schema : Schema

/-- _TransformerRunner: captures the parent dataframe's schema and metadata
at construction, together with the tolerated exception classes. -/
structure TransformerRunner where
  schema : Schema
  metadata : ParamDict
  transformer : Transformer
  ignore_errors : List String

/-- to_local_bounded_df on an already local bounded dataframe is the
identity. -/
def to_local_bounded_df (df : DataFrame) : DataFrame := df

/-- ArrayDataFrame([], schema): the explicitly empty dataframe of a declared
schema. -/
def emptyArrayDataFrame (s : Schema) : DataFrame :=
  ⟨s, [], ⟨[], true⟩⟩

/-- _TransformerRunner.run: binds the cursor onto the transform (modelled by
passing the cursor as an argument), propagates the captured dataset-level
metadata onto the data view, and invokes the transform; with an empty
ignore list the transform's outcome is returned unmodified, otherwise a
raised exception matching a tolerated class degrades to an empty dataframe
of the declared output schema and any other exception propagates. -/
def TransformerRunner.run (r : TransformerRunner) (cursor : PartitionCursor)
    (df : DataFrame) : Except PyException DataFrame :=
  let df2 : DataFrame := { df with metadata := r.metadata }
  if r.ignore_errors = [] then
    r.transformer.transform cursor df2
  else
    match r.transformer.transform cursor df2 with
    | .ok out => .ok (to_local_bounded_df out)
    | .error e =>
      if e.matchesAny r.ignore_errors then
        .ok (emptyArrayDataFrame r.transformer.output_schema)
      else .error e

/-- Modelled from the spec: plain DataFrame.drop (fugue/dataframe, not under
the given sources) fails on a column name missing from the schema; surviving
columns keep their order and each row drops the corresponding positions. -/
def DataFrame.drop (df : DataFrame) (cols : List String) : Except PyError DataFrame :=
  if cols.all (fun c => (schemaNames df.schema).contains c) then
    .ok ⟨df.schema.filter (fun c => !(cols.contains c.1)),
      df.rows.map (fun r =>
        ((df.schema.zip r).filter (fun cv => !(cols.contains cv.1.1))).map Prod.snd),
      df.metadata⟩
  else .error (.valueError "column not found")

/-- DropColumns.process: asserts a single input; with if_exists the requested
columns are intersected with the schema's keys before dropping (python uses
an unordered set for the intersection; it is modelled as filter plus dedup,
and drop does not depend on the order), otherwise the requested list is
passed to drop unchanged. -/
def DropColumns.process (if_exists : Bool) (columns : List String)
    (dfs : List DataFrame) : Except PyError DataFrame :=
  match dfs with
  | [df] =>
    let cols := if if_exists then
        (columns.filter (fun c => (schemaNames df.schema).contains c)).dedup
      else columns
    df.drop cols
  | _ => .error (.assertion "not single input")

/-- DaskDataFrame reduced to what peek_array needs: the schema and the rows
of the computed (concatenated) frame. -/
structure DaskDataFrame where
  schema : Schema
  rows : List (List Int)
deriving DecidableEq, Repr

/-- DaskDataFrame.empty: whether the computed frame has no rows. -/
def DaskDataFrame.empty (df : DaskDataFrame) : Bool :=
  df.rows.isEmpty

/-- DaskDataFrame.peek_array: asserts the dataframe is non-empty
(assert_not_empty, defined on the DataFrame base class outside the given
sources and modelled from the spec as raising on an empty dataframe), then
returns the first row of the computed pandas frame. -/
def DaskDataFrame.peek_array (df : DaskDataFrame) : Except PyError (List Int) :=
  match df.rows with
  | [] => .error (.assertion "dataframe is empty")
  | r :: _ => .ok r

/-! Concrete instances used by the theorems below. -/

/-- The cursor test scenario row schema a:int,b:int,c:int,d:int. -/
def cursorRowSchema : Schema :=
  [("a", "int"), ("b", "int"), ("c", "int"), ("d", "int")]

/-- PartitionSpec(partition_by=["b","a"]). -/
def specBA : PartitionSpec :=
  ⟨["b", "a"], "0", [], "hash", 0, "0"⟩

/-- The cursor of the test scenario, bound at physical partition 2, after
set([1,2,2,2], 5, 6). -/
def cursorBA : PartitionCursor :=
  (specBA.get_cursor cursorRowSchema 2).set [1, 2, 2, 2] 5 6

/-- Input dataframe with schema a:int,b:int and two groups under
partition_by=["a"]. -/
def mapInputDf : DataFrame :=
  ⟨[("a", "int"), ("b", "int")], [[0, 1], [0, 2], [1, 3]], ⟨[], false⟩⟩

/-- A transform output whose schema x:str differs from every output schema
declared in the map calls below. -/
def mismatchDf : DataFrame :=
  ⟨[("x", "str")], [[7]], ⟨[], false⟩⟩

/-- PartitionSpec(by=["a"]). -/
def specByA : PartitionSpec :=
  ⟨["a"], "0", [], "hash", 0, "0"⟩

/-- The empty PartitionSpec. -/
def emptySpec : PartitionSpec :=
  ⟨[], "0", [], "hash", 0, "0"⟩

/-- A ValueError instance, carrying its class name and ancestor class
names. -/
def valueErrorExc : PyException :=
  ⟨["ValueError", "Exception"]⟩

/-- A transformer whose body always raises ValueError and declares output
schema x:int. -/
def raisingTransformer : Transformer :=
  ⟨fun _ _ => .error valueErrorExc, [("x", "int")]⟩

/-- A runner over the raising transformer tolerating ValueError. -/
def runnerTolerant : TransformerRunner :=
  ⟨[("a", "int")], ⟨[], false⟩, raisingTransformer, ["ValueError"]⟩

/-- A cursor over schema a:int for the runner scenario. -/
def cursorA : PartitionCursor :=
  emptySpec.get_cursor [("a", "int")] 0

/-- A one-row dataframe over schema a:int. -/
def dfA1 : DataFrame :=
  ⟨[("a", "int")], [[1]], ⟨[], false⟩⟩

/-- The dataframe map returns for mapInputDf with the identity transform and
empty partition_by: same data, metadata frozen. -/
def mapResultFrozen : DataFrame :=
  ⟨[("a", "int"), ("b", "int")], [[0, 1], [0, 2], [1, 3]], ⟨[], true⟩⟩

/-- A constructor input exercising alias keys, presort parsing and algo
lower-casing. -/
def sampleInput : List (String × PValue) :=
  [("by", .strs ["a", "b", "c"]), ("presort", .str "d asc,e desc"),
   ("num", .nat 5), ("algo", .str "EvEN")]

/-- The normalized spec built from sampleInput. -/
def sampleSpec : PartitionSpec :=
  ⟨["a", "b", "c"], "5", [("d", true), ("e", false)], "even", 0, "0"⟩

/-- An empty DaskDataFrame over schema a:int. -/
def emptyDask : DaskDataFrame :=
  ⟨[("a", "int")], []⟩

/-- Whether an Except value is a success. -/
def exceptOk : Except PyError DataFrame → Bool
  | .ok _ => true
  | .error _ => false

/-! Theorems settling the claims. -/

/-- C7: get_num_partitions evaluates the num_partitions expression against
the caller-supplied zero-argument resolvers: "(x + Y) * 2" with x=1 and Y=2
gives 6, "min(ROWCOUNT,CORECOUNT)" with ROWCOUNT=100 and CORECOUNT=90 gives
90, an integer-literal expression returns that integer directly (the literal
branch recognizes it), and omitting a resolver for a keyword referenced in
the expression raises an evaluation error at the point get_num_partitions is
called. -/
theorem C7_get_num_partitions :
    (PartitionSpec.mk ["b", "a"] "(x + Y) * 2" [] "hash" 0 "0").get_num_partitions
      [("x", 1), ("Y", 2)] = .ok 6
  ∧ (PartitionSpec.mk ["b", "a"] "min(ROWCOUNT,CORECOUNT)" [] "hash" 0 "0").get_num_partitions
      [(KEYWORD_ROWCOUNT, 100), (KEYWORD_CORECOUNT, 90)] = .ok 90
  ∧ (PartitionSpec.mk ["b", "a"] "123" [] "hash" 0 "0").get_num_partitions [] = .ok 123
  ∧ parseNatLiteral "123" = some 123
  ∧ (PartitionSpec.mk ["b", "a"] "(x + Y) * 2" [] "hash" 0 "0").get_num_partitions
      [("x", 1)] = .error (.nameError "name is not defined") :=
  ⟨rfl, rfl, rfl, rfl, rfl⟩

/-- C8: for a cursor bound to row schema a:int,b:int,c:int,d:int with
partition_by=["b","a"], after set([1,2,2,2],5,6): key_value_array equals
[2,1] (key schema order b,a), key_value_dict maps a to 1 and b to 2 and
nothing else, row equals [1,2,2,2], partition_no equals 5, slice_no equals
6, and column lookup by name "c" returns the value at that column's row
position. -/
theorem C8_cursor_scenario :
    cursorBA.key_value_array = [2, 1]
  ∧ cursorBA.key_value_dict.lookup "a" = some 1
  ∧ cursorBA.key_value_dict.lookup "b" = some 2
  ∧ cursorBA.key_value_dict.length = 2
  ∧ cursorBA.row = [1, 2, 2, 2]
  ∧ cursorBA.partition_no = 5
  ∧ cursorBA.slice_no = 6
  ∧ cursorBA.get "c" = some 2 :=
  ⟨rfl, rfl, rfl, rfl, rfl, rfl, rfl, rfl⟩

/-- C10: peek_array on an empty DaskDataFrame raises an error
(assert_not_empty runs before the first row is read), and on a non-empty
one returns the first row, so peeking is only defined for non-empty
dataframes. -/
theorem C10_peek_array (df : DaskDataFrame) :
    (df.empty = true → df.peek_array = .error (.assertion "dataframe is empty"))
  ∧ (df.empty = false → df.peek_array = .ok (df.rows.headD [])) := by
  cases hr : df.rows with
  | nil =>
    refine ⟨fun _ => by simp [DaskDataFrame.peek_array, hr], fun h => ?_⟩
    simp [DaskDataFrame.empty, hr] at h
  | cons r rs =>
    refine ⟨fun h => ?_, fun _ => by simp [DaskDataFrame.peek_array, hr]⟩
    simp [DaskDataFrame.empty, hr] at h

/-- Witness for C10 at the concrete empty dataframe. -/
theorem C10_peek_array_witness :
    emptyDask.peek_array = .error (.assertion "dataframe is empty") :=
  (C10_peek_array emptyDask).1 rfl

/-- C6: for every pair of input dataframes, subtract and intersect with
distinct false fail explicitly with NotImplementedError (never returning a
deduplicated result), while with distinct true and identical schemas both
calls succeed. -/
theorem C6_set_ops (df1 df2 : DataFrame) (md : List (String × String)) :
    (NativeExecutionEngine.subtract df1 df2 false md
        = .error (.notImplemented "EXCEPT ALL for NativeExecutionEngine")
      ∧ NativeExecutionEngine.intersect df1 df2 false md
        = .error (.notImplemented "INTERSECT ALL for NativeExecutionEngine"))
  ∧ (df1.schema = df2.schema →
      exceptOk (NativeExecutionEngine.subtract df1 df2 true md) = true
      ∧ exceptOk (NativeExecutionEngine.intersect df1 df2 true md) = true) := by
  refine ⟨⟨rfl, rfl⟩, fun h => ⟨?_, ?_⟩⟩ <;>
    simp [NativeExecutionEngine.subtract, NativeExecutionEngine.intersect, h, exceptOk]

/-- Witness for C6 at concrete equal-schema inputs. -/
theorem C6_set_ops_witness :
    NativeExecutionEngine.subtract dfA1 dfA1 false []
      = .error (.notImplemented "EXCEPT ALL for NativeExecutionEngine")
  ∧ exceptOk (NativeExecutionEngine.subtract dfA1 dfA1 true []) = true :=
  ⟨(C6_set_ops dfA1 dfA1 []).1.1, ((C6_set_ops dfA1 dfA1 []).2 rfl).1⟩

/-- C2: for every transformer runner whose transform raises exception e on
the metadata-propagated input: with an empty ignore-errors list the
exception propagates unmodified out of run; with a non-empty list, when e
matches one of the tolerated classes run returns the empty dataframe of the
transform's declared output schema, and when e matches none of them it
still propagates. -/
theorem C2_runner_error_policy (r : TransformerRunner) (cursor : PartitionCursor)
    (df : DataFrame) (e : PyException)
    (htr : r.transformer.transform cursor { df with metadata := r.metadata } = .error e) :
    (r.ignore_errors = [] → r.run cursor df = .error e)
  ∧ (r.ignore_errors ≠ [] → e.matchesAny r.ignore_errors = true →
      r.run cursor df = .ok (emptyArrayDataFrame r.transformer.output_schema))
  ∧ (e.matchesAny r.ignore_errors = false → r.run cursor df = .error e) := by
  refine ⟨fun hie => ?_, fun hie hm => ?_, fun hm => ?_⟩
  · simp [TransformerRunner.run, hie, htr]
  · simp [TransformerRunner.run, hie, htr, hm]
  · by_cases hie : r.ignore_errors = []
    · simp [TransformerRunner.run, hie, htr]
    · simp [TransformerRunner.run, hie, htr, hm]

/-- Witness for C2: the tolerant runner degrades the raised ValueError to
the empty dataframe of the declared output schema x:int. -/
theorem C2_runner_error_policy_witness :
    runnerTolerant.run cursorA dfA1 = .ok (emptyArrayDataFrame [("x", "int")]) :=
  (C2_runner_error_policy runnerTolerant cursorA dfA1 valueErrorExc rfl).2.1
    (by decide) rfl

/-- C3: every successful result of the engine's map carries metadata that is
frozen (read-only) immediately after being set, on both the empty and the
non-empty partition_by paths, so any attempt to mutate it afterward fails. -/
theorem C3_metadata_frozen (df : DataFrame) (f : PartitionCursor → DataFrame → DataFrame)
    (os : Schema) (ps : PartitionSpec) (md : List (String × String)) (res : DataFrame)
    (h : NativeExecutionEngine.map df f os ps md = .ok res) :
    res.metadata.readonly = true
  ∧ ∀ k v, res.metadata.setItem k v = .error (.assertion "ParamDict is readonly") := by
  simp only [NativeExecutionEngine.map] at h
  split at h
  · split at h
    · exact Except.noConfusion h
    · split at h
      · injection h with h
        subst h
        exact ⟨rfl, fun k v => rfl⟩
      · exact Except.noConfusion h
  · injection h with h
    subst h
    exact ⟨rfl, fun k v => rfl⟩

/-- Witness for C3 at a concrete map call with the identity transform. -/
theorem C3_metadata_frozen_witness :
    mapResultFrozen.metadata.readonly = true
  ∧ mapResultFrozen.metadata.setItem "k" "v" = .error (.assertion "ParamDict is readonly") :=
  ⟨(C3_metadata_frozen mapInputDf (fun _ d => d) [("a", "int"), ("b", "int")]
      emptySpec [] mapResultFrozen rfl).1,
   (C3_metadata_frozen mapInputDf (fun _ d => d) [("a", "int"), ("b", "int")]
      emptySpec [] mapResultFrozen rfl).2 "k" "v"⟩

/-- C1 is refuted on the non-empty partition_by path: map returns
successfully even though the transform's returned dataframe's schema x:str
does not structurally equal the declared output schema a:int — no contract
violation is raised on the grouped path. -/
theorem C1_counterexample :
    exceptOk (NativeExecutionEngine.map mapInputDf (fun _ _ => mismatchDf)
      [("a", "int")] specByA []) = true
  ∧ mismatchDf.schema ≠ [("a", "int")]
  ∧ specByA.partition_by ≠ [] := by
  have h1 : exceptOk (NativeExecutionEngine.map mapInputDf (fun _ _ => mismatchDf)
      [("a", "int")] specByA []) = true := rfl
  have h2 : mismatchDf.schema ≠ [("a", "int")] := by decide
  have h3 : specByA.partition_by ≠ [] := by decide
  exact ⟨h1, h2, h3⟩

/-- C1 amended: when partition_by is empty, if the transform's returned
dataframe's schema never structurally equals the declared output_schema,
map raises an error rather than silently coercing (and map consults no
ignore-errors list at all: the error-ignore policy lives in the runner, not
in map); on the non-empty path the engine performs no schema check, as the
counterexample shows. -/
theorem C1_schema_contract_empty_by (df : DataFrame)
    (f : PartitionCursor → DataFrame → DataFrame) (os : Schema)
    (ps : PartitionSpec) (md : List (String × String))
    (hps : ps.partition_by = [])
    (hmm : ∀ c d, (f c d).schema ≠ os) :
    ∃ msg, NativeExecutionEngine.map df f os ps md = .error msg := by
  obtain ⟨sch, rows, meta0⟩ := df
  cases rows with
  | nil =>
    simp only [NativeExecutionEngine.map, hps, if_pos]
    exact ⟨_, rfl⟩
  | cons r rs =>
    simp only [NativeExecutionEngine.map, hps, if_pos]
    rw [if_neg (hmm _ _)]
    exact ⟨_, rfl⟩

/-- Witness for the amended C1: with empty partition_by and a transform
always returning schema x:str against declared output schema a:int, map
errors. -/
theorem C1_schema_contract_empty_by_witness :
    ∃ msg, NativeExecutionEngine.map mapInputDf (fun _ _ => mismatchDf)
      [("a", "int")] emptySpec [] = .error msg := by
  apply C1_schema_contract_empty_by
  · rfl
  · intro c d
    decide

/-- C9: DropColumns with if_exists drops exactly the requested names that
exist in the single input's schema, never failing on unknown names; with
if_exists false the full requested column list is passed to the drop
operation unchanged. -/
theorem C9_drop_columns (columns : List String) (df : DataFrame) :
    (∃ out, DropColumns.process true columns [df] = .ok out
      ∧ out.schema = df.schema.filter (fun c => !(columns.contains c.1)))
  ∧ DropColumns.process false columns [df] = df.drop columns := by
  refine ⟨?_, rfl⟩
  have hall : ((columns.filter (fun c => (schemaNames df.schema).contains c)).dedup).all
      (fun c => (schemaNames df.schema).contains c) = true := by
    rw [List.all_eq_true]
    intro c hc
    rw [List.mem_dedup, List.mem_filter] at hc
    exact hc.2
  have hproc : DropColumns.process true columns [df]
      = df.drop ((columns.filter (fun c => (schemaNames df.schema).contains c)).dedup) := rfl
  rw [hproc]
  simp only [DataFrame.drop]
  rw [if_pos hall]
  refine ⟨_, rfl, ?_⟩
  apply List.filter_congr
  intro c hc
  have hcn : c.1 ∈ schemaNames df.schema := by
    exact List.mem_map_of_mem Prod.fst hc
  by_cases hm : c.1 ∈ columns
  · have hmem : c.1 ∈ (columns.filter (fun x => (schemaNames df.schema).contains x)).dedup := by
      rw [List.mem_dedup, List.mem_filter]
      exact ⟨hm, by simpa using hcn⟩
    simp [List.contains, hmem, hm, hcn]
  · have hmem : c.1 ∉ (columns.filter (fun x => (schemaNames df.schema).contains x)).dedup := by
      rw [List.mem_dedup, List.mem_filter]
      intro hcontra
      exact hm hcontra.1
    simp [List.contains, hmem, hm]

/-- ASCII lower-casing is idempotent on characters. -/
theorem lowerChar_idem (c : Char) : lowerChar (lowerChar c) = lowerChar c := by
  unfold lowerChar
  by_cases h : 65 ≤ c.toNat ∧ c.toNat ≤ 90
  · rw [if_pos h]
    have hv : (c.toNat + 32).isValidChar := Or.inl (by omega)
    have ht : (Char.ofNat (c.toNat + 32)).toNat = c.toNat + 32 := by
      unfold Char.ofNat
      rw [dif_pos hv]
      rfl
    have hgt : ¬(65 ≤ (Char.ofNat (c.toNat + 32)).toNat
        ∧ (Char.ofNat (c.toNat + 32)).toNat ≤ 90) := by
      rw [ht]
      omega
    rw [if_neg hgt]
  · rw [if_neg h, if_neg h]

/-- ASCII lower-casing is idempotent on strings. -/
theorem lowerString_idem (s : String) : lowerString (lowerString s) = lowerString s := by
  unfold lowerString
  congr 1
  show (s.data.map lowerChar).map lowerChar = s.data.map lowerChar
  rw [List.map_map]
  exact List.map_congr_left (fun a _ => lowerChar_idem a)

/-- Whatever the algo getter yields is already lower-cased. -/
theorem getAlgo_lower (input : List (String × PValue)) (a : String)
    (h : getAlgo input = .ok a) : lowerString a = a := by
  unfold getAlgo at h
  split at h
  · injection h with h
    subst h
    rfl
  · injection h with h
    subst h
    exact lowerString_idem _
  · exact Except.noConfusion h

/-- Every spec produced by the constructor satisfies the normalization
invariants: distinct partition columns, distinct presort columns, no
overlap between the two, and an already-lower-cased algo token. -/
theorem construct_ok_facts (input : List (String × PValue)) (p : PartitionSpec)
    (h : PartitionSpec.construct input = .ok p) :
    p.partition_by.Nodup ∧ (p.presort.map Prod.fst).Nodup
  ∧ p.partition_by.all (fun c => !((p.presort.map Prod.fst).contains c)) = true
  ∧ lowerString p.algo = p.algo := by
  unfold PartitionSpec.construct at h
  split at h
  · exact Except.noConfusion h
  · split at h
    · exact Except.noConfusion h
    · split at h
      · exact Except.noConfusion h
      · split at h
        · exact Except.noConfusion h
        · split at h
          · exact Except.noConfusion h
          · split at h
            · exact Except.noConfusion h
            · split at h
              · split at h
                · split at h
                  · injection h with h
                    subst h
                    refine ⟨by assumption, by assumption, by assumption, ?_⟩
                    exact getAlgo_lower input _ (by assumption)
                  · exact Except.noConfusion h
                · exact Except.noConfusion h
              · exact Except.noConfusion h

/-- A spec satisfying the normalization invariants is reproduced exactly by
constructing from its canonical document. -/
theorem construct_jsondict_eq (p : PartitionSpec)
    (h1 : p.partition_by.Nodup) (h2 : (p.presort.map Prod.fst).Nodup)
    (h3 : p.partition_by.all (fun c => !((p.presort.map Prod.fst).contains c)) = true)
    (h4 : lowerString p.algo = p.algo) :
    PartitionSpec.construct p.jsondict = .ok p := by
  have e1 : getPartitionBy p.jsondict = .ok p.partition_by := rfl
  have e2 : getNum p.jsondict = .ok p.num_partitions := rfl
  have e3 : getPresort p.jsondict = .ok p.presort := rfl
  have e4 : getAlgo p.jsondict = .ok (lowerString p.algo) := rfl
  have e5 : getRowLimit p.jsondict = .ok p.row_limit := rfl
  have e6 : getSizeLimit p.jsondict = .ok p.size_limit := rfl
  unfold PartitionSpec.construct
  simp only [e1, e2, e3, e4, e5, e6, h4]
  rw [if_pos h1, if_pos h2, if_pos h3]

/-- C5: every PartitionSpec built from valid constructor inputs round-trips
through its canonical ordered document: constructing from to_document(p)
yields p again. -/
theorem C5_roundtrip (input : List (String × PValue)) (p : PartitionSpec)
    (h : PartitionSpec.construct input = .ok p) :
    PartitionSpec.construct p.jsondict = .ok p := by
  obtain ⟨h1, h2, h3, h4⟩ := construct_ok_facts input p h
  exact construct_jsondict_eq p h1 h2 h3 h4

/-- Witness for C5 at a concrete constructor input with alias keys, presort
string parsing and algo lower-casing. -/
theorem C5_roundtrip_witness :
    PartitionSpec.construct sampleSpec.jsondict = .ok sampleSpec :=
  C5_roundtrip sampleInput sampleSpec rfl

/-- A spec constructed from by-columns [a, b] alone, for distinct a and b. -/
theorem construct_by_pair (a b : String) (h : a ≠ b) :
    PartitionSpec.construct [("by", PValue.strs [a, b])]
      = .ok ⟨[a, b], "0", [], "hash", 0, "0"⟩ := by
  have e1 : getPartitionBy [("by", PValue.strs [a, b])] = .ok [a, b] := rfl
  have e2 : getNum [("by", PValue.strs [a, b])] = .ok "0" := rfl
  have e3 : getPresort [("by", PValue.strs [a, b])] = .ok [] := rfl
  have e4 : getAlgo [("by", PValue.strs [a, b])] = .ok "hash" := rfl
  have e5 : getRowLimit [("by", PValue.strs [a, b])] = .ok 0 := rfl
  have e6 : getSizeLimit [("by", PValue.strs [a, b])] = .ok "0" := rfl
  have hnd : ([a, b] : List String).Nodup := by simp [h]
  unfold PartitionSpec.construct
  simp only [e1, e2, e3, e4, e5, e6]
  rw [if_pos hnd]
  rfl

/-- C4: PartitionSpec equality and content hashing are order-sensitive on
partition_by — for distinct names a and b, by=[a,b] and by=[b,a] compare
unequal and hash differently — while two specs with equal canonical field
tuples (the same fields supplied under a different keyword order) compare
equal and hash identically. -/
theorem C4_order_sensitivity (a b : String) (h : a ≠ b) :
    (PartitionSpec.construct [("by", PValue.strs [a, b])]
        ≠ PartitionSpec.construct [("by", PValue.strs [b, a])]
      ∧ (PartitionSpec.construct [("by", PValue.strs [a, b])]).map specUuid
        ≠ (PartitionSpec.construct [("by", PValue.strs [b, a])]).map specUuid)
  ∧ (PartitionSpec.construct [("by", PValue.strs ["a"]), ("num", PValue.nat 2)]
        = PartitionSpec.construct [("num", PValue.str "2"), ("by", PValue.strs ["a"])]
      ∧ (PartitionSpec.construct [("by", PValue.strs ["a"]), ("num", PValue.nat 2)]).map specUuid
        = (PartitionSpec.construct [("num", PValue.str "2"), ("by", PValue.strs ["a"])]).map specUuid) := by
  have hab := construct_by_pair a b h
  have hba := construct_by_pair b a (Ne.symm h)
  refine ⟨⟨?_, ?_⟩, rfl, rfl⟩
  · rw [hab, hba]
    intro hcontra
    injection hcontra with hcontra
    have hby : [a, b] = [b, a] := congrArg PartitionSpec.partition_by hcontra
    simp at hby
    exact h hby.1
  · rw [hab, hba]
    intro hcontra
    simp only [Except.map] at hcontra
    injection hcontra with hcontra
    simp [specUuid, PartitionSpec.jsondict] at hcontra
    exact h hcontra.1

/-- Witness for C4 at the concrete distinct column names "a" and "b". -/
theorem C4_order_sensitivity_witness :
    PartitionSpec.construct [("by", PValue.strs ["a", "b"])]
      ≠ PartitionSpec.construct [("by", PValue.strs ["b", "a"])] :=
  ((C4_order_sensitivity "a" "b" (by decide)).1).1
